import Mathlib

/-!
# Verification of the PTZ11 broadcast controller core

Shallow embedding of the two Python source files `app.py` and
`ptz11_controller.py`.  Python strings are modelled as `List Char`,
Python `bytes`/`bytearray` values as `List Nat` (each entry < 256), and
Python `int` as `Int` (or as `Nat` for the sequence counter, with the
`& 0xFFFFFFFF` mask written as `% 4294967296`).  Fallible operations
(`bytearray.fromhex` raising `ValueError`) return `Option`.

The namespaces `App` and `Ptz11` hold the functions of `app.py` and
`ptz11_controller.py` respectively; shared low-level helpers live at the
top level.
-/

/-- Value of one hexadecimal digit, as accepted by Python's
`bytes.fromhex` (both cases accepted); written over code points:
48-57 are the digits, 65-70 are A-F, 97-102 are a-f. -/
def hexVal (c : Char) : Option Nat :=
  let n := c.toNat
  if 48 ≤ n ∧ n ≤ 57 then some (n - 48)
  else if 65 ≤ n ∧ n ≤ 70 then some (n - 55)
  else if 97 ≤ n ∧ n ≤ 102 then some (n - 87)
  else none

/-- Test for the ASCII whitespace characters that Python 3.11's
`bytes.fromhex` skips: tab (9), LF (10), VT (11), FF (12), CR (13) and
space (32). -/
def isAsciiWS (c : Char) : Bool :=
  c.toNat == 9 || c.toNat == 10 || c.toNat == 11 || c.toNat == 12 ||
    c.toNat == 13 || c.toNat == 32

/-- Embedding of `bytearray.fromhex` with Python 3.11 semantics: ASCII
whitespace is skipped before each byte pair and at the end of the
string, a byte's two hex digits must be adjacent (whitespace inside a
pair raises), and any other non-hex character raises `ValueError`
(verified against CPython 3.11: `"81\t02"` decodes, `"8\t1"` raises). -/
def hexDecodePairs : List Char → Option (List Nat)
  | [] => some []
  | [c] => if isAsciiWS c then some [] else none
  | c1 :: c2 :: rest =>
    if isAsciiWS c1 then hexDecodePairs (c2 :: rest)
    else
      match hexVal c1, hexVal c2, hexDecodePairs rest with
      | some hi, some lo, some bs => some ((16 * hi + lo) :: bs)
      | _, _, _ => none

/-- Embedding of `payload_hex.replace(" ", "").upper()` as it appears in
both packet builders.  `Char.toUpper` agrees with Python's `str.upper`
character by character on ASCII; Unicode case expansions (such as the
single character ﬀ uppercasing to the two characters FF) are outside
this model, so claims about the composed build pipeline are scoped to
ASCII inputs. -/
def cleanHex (payload_hex : List Char) : List Char :=
  (payload_hex.filter (fun c => c != ' ')).map Char.toUpper

/-- Embedding of `seq.to_bytes(4, byteorder="big")`. -/
def toBytesBE4 (n : Nat) : List Nat :=
  [n / 16777216 % 256, n / 65536 % 256, n / 256 % 256, n % 256]

/-- Big-endian interpretation of a byte list (used to read the sequence
field back out of a packet). -/
def fromBytesBE (l : List Nat) : Nat :=
  l.foldl (fun a b => 256 * a + b) 0

/-- Uppercase hexadecimal digit characters, as produced by Python's
format specifier `X`. -/
def hexChar (n : Nat) : Char :=
  "0123456789ABCDEF".data.getD n '0'

/-- Hex digits of a positive number, most significant first; the first
argument is structural fuel (any fuel at least the value itself works). -/
def natFmtXAux : Nat → Nat → List Char
  | 0, _ => []
  | _ + 1, 0 => []
  | fuel + 1, n + 1 => natFmtXAux fuel ((n + 1) / 16) ++ [hexChar ((n + 1) % 16)]

/-- Hex digits of a natural number, Python `format(n, "X")`. -/
def natFmtX (n : Nat) : List Char :=
  if n = 0 then ['0'] else natFmtXAux n n

/-- Left-pad a character list with `c` up to width `w`. -/
def padLeft (w : Nat) (c : Char) (l : List Char) : List Char :=
  List.replicate (w - l.length) c ++ l

/-- Embedding of the Python f-string field `{i:02X}`: zero-padded to a
total width of two characters, the sign included for negative values
(so `-1` formats as the two characters `-1`). -/
def pythonFmt02X (i : Int) : List Char :=
  if i < 0 then '-' :: padLeft 1 '0' (natFmtX i.natAbs)
  else padLeft 2 '0' (natFmtX i.toNat)

/-! ## Lemmas about the helpers -/

/-- Maximal whitespace-delimited chunks of a character list: splitting on
ASCII whitespace, keeping (possibly empty) chunks. -/
def wsChunks : List Char → List (List Char)
  | [] => [[]]
  | c :: rest =>
    if isAsciiWS c then [] :: wsChunks rest
    else (wsChunks rest).modifyHead (fun g => c :: g)

theorem wsChunks_cons (c : Char) (l : List Char) :
    wsChunks (c :: l) =
      if isAsciiWS c then [] :: wsChunks l
      else (wsChunks l).modifyHead (fun g => c :: g) := rfl

theorem wsChunks_ne_nil : ∀ l : List Char, wsChunks l ≠ []
  | [] => by simp [wsChunks]
  | c :: rest => by
      have ih := wsChunks_ne_nil rest
      rw [wsChunks_cons]
      split
      · simp
      · cases h : wsChunks rest with
        | nil => exact absurd h ih
        | cons g gs => simp [List.modifyHead]

theorem hexVal_some_bounds (c : Char) (a : Nat) (h : hexVal c = some a) :
    (48 ≤ c.toNat ∧ c.toNat ≤ 57) ∨ (65 ≤ c.toNat ∧ c.toNat ≤ 70) ∨
      (97 ≤ c.toNat ∧ c.toNat ≤ 102) := by
  simp only [hexVal] at h
  split at h
  · exact Or.inl (by assumption)
  · split at h
    · exact Or.inr (Or.inl (by assumption))
    · split at h
      · exact Or.inr (Or.inr (by assumption))
      · exact Option.noConfusion h

theorem hexVal_some_not_ws (c : Char) (a : Nat) (h : hexVal c = some a) :
    isAsciiWS c = false := by
  have hb := hexVal_some_bounds c a h
  simp only [isAsciiWS, Bool.or_eq_false_iff, beq_eq_false_iff_ne, ne_eq]
  omega

theorem ws_hexVal_none (c : Char) (h : isAsciiWS c = true) : hexVal c = none := by
  simp only [isAsciiWS, Bool.or_eq_true, beq_iff_eq] at h
  simp only [hexVal]
  rw [if_neg (by omega), if_neg (by omega), if_neg (by omega)]

theorem hexDecodePairs_length : ∀ (l : List Char) (bs : List Nat),
    hexDecodePairs l = some bs →
    (l.filter (fun c => !isAsciiWS c)).length = 2 * bs.length
  | [], bs, h => by
      simp only [hexDecodePairs, Option.some.injEq] at h
      subst h
      rfl
  | [c], bs, h => by
      revert h
      simp only [hexDecodePairs]
      by_cases hw : isAsciiWS c = true
      · rw [if_pos hw]
        intro h
        simp only [Option.some.injEq] at h
        subst h
        simp [hw]
      · rw [if_neg hw]
        intro h
        exact Option.noConfusion h
  | c1 :: c2 :: rest, bs, h => by
      revert h
      simp only [hexDecodePairs]
      by_cases hw1 : isAsciiWS c1 = true
      · rw [if_pos hw1]
        intro h
        have hlen := hexDecodePairs_length (c2 :: rest) bs h
        have hdrop : List.filter (fun c => !isAsciiWS c) (c1 :: c2 :: rest)
            = List.filter (fun c => !isAsciiWS c) (c2 :: rest) := by
          simp [List.filter_cons, hw1]
        rw [hdrop]
        exact hlen
      · rw [if_neg hw1]
        cases hv1 : hexVal c1 with
        | none => intro h; simp at h
        | some a1 =>
          cases hv2 : hexVal c2 with
          | none => intro h; simp at h
          | some a2 =>
            cases hrec : hexDecodePairs rest with
            | none => intro h; simp at h
            | some bs' =>
              intro h
              simp only [Option.some.injEq] at h
              subst h
              have ih := hexDecodePairs_length rest bs' hrec
              have hnw1 : isAsciiWS c1 = false := hexVal_some_not_ws c1 a1 hv1
              have hnw2 : isAsciiWS c2 = false := hexVal_some_not_ws c2 a2 hv2
              have hkeep : List.filter (fun c => !isAsciiWS c) (c1 :: c2 :: rest)
                  = c1 :: c2 :: List.filter (fun c => !isAsciiWS c) rest := by
                simp [List.filter_cons, hnw1, hnw2]
              rw [hkeep]
              simp only [List.length_cons]
              omega

theorem hexDecodePairs_eq_none_iff : ∀ l : List Char,
    hexDecodePairs l = none ↔
      ((∃ c ∈ l, hexVal c = none ∧ isAsciiWS c = false) ∨
       (∃ g ∈ wsChunks l, g.length % 2 = 1))
  | [] => by simp [hexDecodePairs, wsChunks]
  | [c] => by
      simp only [hexDecodePairs]
      by_cases hw : isAsciiWS c = true
      · rw [if_pos hw]
        refine iff_of_false (by simp) ?_
        rintro (⟨c', hc', hv, hnw⟩ | ⟨g, hg, hodd⟩)
        · simp only [List.mem_singleton] at hc'
          subst hc'
          rw [hw] at hnw
          exact Bool.noConfusion hnw
        · rw [wsChunks_cons, if_pos hw] at hg
          simp only [wsChunks] at hg
          simp only [List.mem_cons, List.mem_singleton] at hg
          rcases hg with rfl | rfl | hfalse
          · simp at hodd
          · simp at hodd
          · simp at hfalse
      · rw [if_neg hw]
        have hwf : isAsciiWS c = false := by
          cases hb : isAsciiWS c
          · rfl
          · exact absurd hb hw
        refine iff_of_true rfl ?_
        cases hv : hexVal c with
        | none => exact Or.inl ⟨c, List.mem_singleton_self c, hv, hwf⟩
        | some a =>
          refine Or.inr ⟨[c], ?_, by simp⟩
          rw [wsChunks_cons, if_neg hw]
          simp [wsChunks, List.modifyHead]
  | c1 :: c2 :: rest => by
      have ih2 := hexDecodePairs_eq_none_iff (c2 :: rest)
      have ih := hexDecodePairs_eq_none_iff rest
      simp only [hexDecodePairs]
      by_cases hw1 : isAsciiWS c1 = true
      · rw [if_pos hw1]
        have hch : wsChunks (c1 :: c2 :: rest) = [] :: wsChunks (c2 :: rest) := by
          rw [wsChunks_cons, if_pos hw1]
        rw [ih2]
        constructor
        · rintro (⟨c, hc, hv, hnw⟩ | ⟨g, hg, hodd⟩)
          · exact Or.inl ⟨c, List.mem_cons_of_mem _ hc, hv, hnw⟩
          · refine Or.inr ⟨g, ?_, hodd⟩
            rw [hch]
            exact List.mem_cons_of_mem _ hg
        · rintro (⟨c, hc, hv, hnw⟩ | ⟨g, hg, hodd⟩)
          · rcases List.mem_cons.mp hc with rfl | hc'
            · rw [hw1] at hnw
              exact Bool.noConfusion hnw
            · exact Or.inl ⟨c, hc', hv, hnw⟩
          · rw [hch] at hg
            rcases List.mem_cons.mp hg with rfl | hg'
            · simp at hodd
            · exact Or.inr ⟨g, hg', hodd⟩
      · rw [if_neg hw1]
        have hwf1 : isAsciiWS c1 = false := by
          cases hb : isAsciiWS c1
          · rfl
          · exact absurd hb hw1
        cases hv1 : hexVal c1 with
        | none =>
          refine iff_of_true ?_ (Or.inl ⟨c1, List.mem_cons_self _ _, hv1, hwf1⟩)
          cases hexVal c2 <;> cases hexDecodePairs rest <;> rfl
        | some a1 =>
          by_cases hw2 : isAsciiWS c2 = true
          · have hv2 : hexVal c2 = none := ws_hexVal_none c2 hw2
            rw [hv2]
            refine iff_of_true ?_ ?_
            · cases hexDecodePairs rest <;> rfl
            · have hchfull : wsChunks (c1 :: c2 :: rest) = [c1] :: wsChunks rest := by
                rw [wsChunks_cons, if_neg hw1, wsChunks_cons, if_pos hw2]
                simp [List.modifyHead]
              refine Or.inr ⟨[c1], ?_, by simp⟩
              rw [hchfull]
              exact List.mem_cons_self _ _
          · have hwf2 : isAsciiWS c2 = false := by
              cases hb : isAsciiWS c2
              · rfl
              · exact absurd hb hw2
            cases hv2 : hexVal c2 with
            | none =>
              refine iff_of_true ?_
                (Or.inl ⟨c2, List.mem_cons_of_mem _ (List.mem_cons_self _ _), hv2, hwf2⟩)
              cases hexDecodePairs rest <;> rfl
            | some a2 =>
              obtain ⟨g0, gtl, hgs⟩ : ∃ g0 gtl, wsChunks rest = g0 :: gtl := by
                cases hgs : wsChunks rest with
                | nil => exact absurd hgs (wsChunks_ne_nil rest)
                | cons a b => exact ⟨a, b, rfl⟩
              have hchfull : wsChunks (c1 :: c2 :: rest) = (c1 :: c2 :: g0) :: gtl := by
                rw [wsChunks_cons, if_neg hw1, wsChunks_cons, if_neg hw2, hgs]
                simp [List.modifyHead]
              cases hrec : hexDecodePairs rest with
              | some bs' =>
                refine iff_of_false (by simp) ?_
                rintro (⟨c, hc, hv, hnw⟩ | ⟨g, hg, hodd⟩)
                · rcases List.mem_cons.mp hc with rfl | hc'
                  · rw [hv1] at hv
                    exact Option.noConfusion hv
                  · rcases List.mem_cons.mp hc' with rfl | hc''
                    · rw [hv2] at hv
                      exact Option.noConfusion hv
                    · have := ih.mpr (Or.inl ⟨c, hc'', hv, hnw⟩)
                      rw [hrec] at this
                      exact Option.noConfusion this
                · rw [hchfull] at hg
                  rcases List.mem_cons.mp hg with rfl | hg'
                  · have hg0odd : g0.length % 2 = 1 := by
                      simp only [List.length_cons] at hodd
                      omega
                    have := ih.mpr (Or.inr ⟨g0, by rw [hgs]; exact List.mem_cons_self _ _, hg0odd⟩)
                    rw [hrec] at this
                    exact Option.noConfusion this
                  · have := ih.mpr (Or.inr ⟨g, by rw [hgs]; exact List.mem_cons_of_mem _ hg', hodd⟩)
                    rw [hrec] at this
                    exact Option.noConfusion this
              | none =>
                refine iff_of_true rfl ?_
                rcases ih.mp hrec with ⟨c, hc, hv, hnw⟩ | ⟨g, hg, hodd⟩
                · exact Or.inl ⟨c,
                    List.mem_cons_of_mem _ (List.mem_cons_of_mem _ hc), hv, hnw⟩
                · rw [hgs] at hg
                  rcases List.mem_cons.mp hg with rfl | hg'
                  · refine Or.inr ⟨c1 :: c2 :: g, ?_, ?_⟩
                    · rw [hchfull]
                      exact List.mem_cons_self _ _
                    · simp only [List.length_cons]
                      omega
                  · refine Or.inr ⟨g, ?_, hodd⟩
                    rw [hchfull]
                    exact List.mem_cons_of_mem _ hg'

theorem hexDecodePairs_cons_zero (l : List Char) :
    hexDecodePairs ('0' :: '0' :: l) =
      (hexDecodePairs l).map (fun bs => 0 :: bs) := by
  simp only [hexDecodePairs]
  cases hexDecodePairs l <;> rfl

theorem hexDecodePairs_replicate_zero (k : Nat) :
    hexDecodePairs (List.replicate (2 * k) '0') = some (List.replicate k 0) := by
  induction k with
  | zero => rfl
  | succ n ih =>
    have h2 : 2 * (n + 1) = 2 + 2 * n := by omega
    rw [h2, List.replicate_add]
    show hexDecodePairs ('0' :: '0' :: List.replicate (2 * n) '0') = _
    rw [hexDecodePairs_cons_zero, ih]
    rfl

theorem cleanHex_cons_zero (l : List Char) :
    cleanHex ('0' :: l) = '0' :: cleanHex l := rfl

theorem cleanHex_replicate_zero (n : Nat) :
    cleanHex (List.replicate n '0') = List.replicate n '0' := by
  induction n with
  | zero => rfl
  | succ k ih =>
    rw [List.replicate_succ, cleanHex_cons_zero, ih]

theorem fromBytesBE_toBytesBE4 (n : Nat) (h : n < 4294967296) :
    fromBytesBE (toBytesBE4 n) = n := by
  simp only [toBytesBE4, fromBytesBE, List.foldl]
  omega

theorem natFmtXAux_fuel_zero_val : ∀ fuel, natFmtXAux fuel 0 = [] := by
  intro fuel
  cases fuel <;> rfl

theorem natFmtXAux_small (fuel n : Nat) (h1 : 1 ≤ n) (h2 : n ≤ 15)
    (hf : 1 ≤ fuel) : natFmtXAux fuel n = [hexChar n] := by
  cases fuel with
  | zero => omega
  | succ f =>
    cases n with
    | zero => omega
    | succ m =>
      show natFmtXAux f ((m + 1) / 16) ++ [hexChar ((m + 1) % 16)] = _
      have hd : (m + 1) / 16 = 0 := by omega
      have hm : (m + 1) % 16 = m + 1 := by omega
      rw [hd, hm, natFmtXAux_fuel_zero_val]
      rfl

theorem natFmtX_two_digits (n : Nat) (h1 : 16 ≤ n) (h2 : n < 256) :
    natFmtX n = [hexChar (n / 16), hexChar (n % 16)] := by
  have hne : n ≠ 0 := by omega
  rw [natFmtX, if_neg hne]
  cases n with
  | zero => omega
  | succ m =>
    show natFmtXAux m ((m + 1) / 16) ++ [hexChar ((m + 1) % 16)] = _
    have hd1 : 1 ≤ (m + 1) / 16 := by omega
    have hd2 : (m + 1) / 16 ≤ 15 := by omega
    have hfm : 1 ≤ m := by omega
    rw [natFmtXAux_small m ((m + 1) / 16) hd1 hd2 hfm]
    rfl

theorem hexVal_hexChar (n : Nat) (h : n < 16) : hexVal (hexChar n) = some n := by
  interval_cases n <;> rfl

theorem hexDecodePairs_two (c1 c2 : Char) (a b : Nat)
    (h1 : hexVal c1 = some a) (h2 : hexVal c2 = some b) :
    hexDecodePairs [c1, c2] = some [16 * a + b] := by
  have hw1 : isAsciiWS c1 = false := hexVal_some_not_ws c1 a h1
  simp [hexDecodePairs, hw1, h1, h2]

theorem hexDecodePairs_padFmt (n : Nat) (h : n < 256) :
    hexDecodePairs (padLeft 2 '0' (natFmtX n)) = some [n] := by
  by_cases h16 : n < 16
  · by_cases h0 : n = 0
    · subst h0
      rfl
    · have hx : natFmtX n = [hexChar n] := by
        rw [natFmtX, if_neg h0]
        exact natFmtXAux_small n n (by omega) (by omega) (by omega)
      rw [hx]
      show hexDecodePairs ['0', hexChar n] = _
      rw [hexDecodePairs_two '0' (hexChar n) 0 n rfl (hexVal_hexChar n (by omega))]
      simp
  · rw [natFmtX_two_digits n (by omega) h]
    show hexDecodePairs [hexChar (n / 16), hexChar (n % 16)] = _
    rw [hexDecodePairs_two _ _ (n / 16) (n % 16)
      (hexVal_hexChar _ (by omega)) (hexVal_hexChar _ (by omega))]
    have hsplit : 16 * (n / 16) + n % 16 = n := by omega
    rw [hsplit]

theorem hexDecodePairs_pythonFmt02X (i : Int) (h0 : 0 ≤ i) (h1 : i < 256) :
    hexDecodePairs (pythonFmt02X i) = some [i.toNat] := by
  have hneg : ¬ i < 0 := by omega
  rw [pythonFmt02X, if_neg hneg]
  exact hexDecodePairs_padFmt i.toNat (by omega)

theorem take_length_append {α : Type} (l1 l2 : List α) :
    (l1 ++ l2).take l1.length = l1 := by
  simp

theorem drop_length_append {α : Type} (l1 l2 : List α) :
    (l1 ++ l2).drop l1.length = l2 := by
  simp

/-! ## Environment types shared by both send functions -/

/-- Outcome of the `sock.sendto` call (a UDP send either succeeds or
raises an OS-level exception). -/
inductive SendtoOutcome
  | ok
  | exn
deriving DecidableEq

/-- Outcome of the `sock.recvfrom(1024)` call: a datagram arrives,
the 500 ms timeout elapses (`socket.timeout`), or another socket
exception is raised. -/
inductive RecvOutcome
  | reply (data : List Nat)
  | timeout
  | exn
deriving DecidableEq

/-- One send's network environment: what the OS does at the `sendto`
and `recvfrom` calls. -/
structure SendEnv where
  sendto : SendtoOutcome
  recv : RecvOutcome
deriving DecidableEq

/-- Observable outcome of one call to a send function: the returned
success flag, the sequence counter after the call, whether the UDP
socket was opened, whether it was closed before returning, whether the
channel lock was released (the Python `with lock:` block), and the
last-command record written to shared state. -/
structure SendOutcome where
  ok : Bool
  seq : Nat
  sockOpened : Bool
  sockClosed : Bool
  lockReleased : Bool
  lastCmd : Option (List Char)
deriving DecidableEq

/-! ## Relay-loop types shared by both `gen_frames` iterations -/

/-- The values taken by `state["stream_status"]` in `app.py`. -/
inductive StreamStatus
  | initializing
  | buffering
  | offline
  | live
deriving DecidableEq

/-- A frame as emitted by a relay loop: a captured source frame
(identified abstractly), the `app.py` placeholder
(`"RTSP Stream Offline"`), or the `ptz11_controller.py` placeholder
(`"Stream Unavailable"`). -/
inductive FrameSrc
  | capture (id : Nat)
  | placeholderOffline
  | placeholderUnavailable
deriving DecidableEq

/-- Result of `cap.read()`: failure, or a frame identified abstractly. -/
inductive ReadResult
  | failed
  | ok (id : Nat)
deriving DecidableEq

/-- The per-loop mutable state of `app.py`'s `gen_frames` relevant to the
failure state machine: `error_count` and `state["stream_status"]`.  The
FPS bookkeeping fields (`stream_frame_count`, `stream_last_time`,
`state["stream_fps"]`), which affect no control flow of the failure
machine, are not modelled. -/
structure RelayState where
  errorCount : Nat
  status : StreamStatus
deriving DecidableEq

/-- Environment of one iteration of `app.py`'s `gen_frames` loop:
whether the body raised an exception (modelled as occurring at the
read call), whether `cap` is non-`None` and `cap.isOpened()` holds at
the top of the iteration, the read result, and whether `cv2.imencode`
succeeds. -/
structure IterIn where
  raised : Bool
  capOpened : Bool
  read : ReadResult
  encodeOk : Bool
deriving DecidableEq

/-- Observable outcome of one iteration: the state afterwards, the
frame chunk yielded (if any), and the `time.sleep` duration in
milliseconds. -/
structure IterOut where
  state : RelayState
  emitted : Option FrameSrc
  sleptMs : Nat
deriving DecidableEq

namespace App

/-- Embeds `get_seq` of `app.py` (lines 77-80):
`seq = (seq + 1) & 0xFFFFFFFF; return seq`.  The global counter is the
argument; the updated counter is both stored and returned. -/
def get_seq (seq : Nat) : Nat :=
  (seq + 1) % 4294967296

/-- Embeds `visca_packet` of `app.py` (lines 82-94).  Returns the built
packet (or `none` when `bytearray.fromhex` raises and the exception
handler returns `None`) together with the sequence counter after the
call. -/
def visca_packet (seq : Nat) (payload_hex : List Char) : Option (List Nat) × Nat :=
  match hexDecodePairs (cleanHex payload_hex) with
  | none => (none, seq)
  | some payload =>
    let s := get_seq seq
    let len := payload.length + 1
    (some (([1, 0, 0, len % 256] ++ toBytesBE4 s) ++ (payload ++ [255])), s)

/-- Embeds `send_cmd` of `app.py` (lines 96-119).  The `with lock:`
block releases the lock on every exit, so `lockReleased` is `true` on
each path.  The socket is closed by the `finally` around `recvfrom`,
which runs only if `sendto` did not raise; an exception at `sendto`
reaches the outer `except` with the socket still open. -/
def send_cmd (seq : Nat) (payload_hex : List Char) (env : SendEnv) : SendOutcome :=
  match visca_packet seq payload_hex with
  | (none, s) => ⟨false, s, false, false, true, none⟩
  | (some _, s) =>
    match env.sendto with
    | .exn => ⟨false, s, true, false, true, none⟩
    | .ok =>
      match env.recv with
      | .reply _ => ⟨true, s, true, true, true, some payload_hex⟩
      | .timeout => ⟨true, s, true, true, true, some payload_hex⟩
      | .exn => ⟨false, s, true, true, true, some payload_hex⟩

/-- Embeds the speed handling of `pan_tilt` in `app.py` (lines 121-126):
`if speed < 0 or speed > 24: speed = 0`. -/
def pan_tilt_speed (s : Int) : Int :=
  if s < 0 ∨ 24 < s then 0 else s

/-- Embeds the command string built by `pan_tilt` in `app.py`
(line 128).  The `send_cmd` call and the `state` updates are modelled
separately; this is the payload handed to `send_cmd`. -/
def pan_tilt (pan_speed tilt_speed : Int) (pan_dir tilt_dir : List Char) : List Char :=
  "81 01 06 01 ".data ++ pythonFmt02X (pan_tilt_speed pan_speed) ++ " ".data
    ++ pythonFmt02X (pan_tilt_speed tilt_speed) ++ " ".data ++ pan_dir
    ++ " ".data ++ tilt_dir

/-- Embeds the byte computation of `zoom` in `app.py` (lines 133-141):
`speed = max(0, min(7, speed))`, then `0x20+speed` for `"in"`,
`0x30+speed` for `"out"`, `0x00` otherwise. -/
def zoomByte (direction : List Char) (speed : Int) : Int :=
  let s := max 0 (min 7 speed)
  if direction = "in".data then 32 + s
  else if direction = "out".data then 48 + s
  else 0

/-- Embeds the payload string sent by `zoom` in `app.py` (line 142). -/
def zoom (direction : List Char) (speed : Int) : List Char :=
  "81 01 04 07 ".data ++ pythonFmt02X (zoomByte direction speed)

/-- Embeds `preset_set` of `app.py` (lines 157-163): for `num` in
1..255 the payload `81 01 04 3F 00 <num>` is sent and `True` returned;
otherwise nothing is sent and `False` returned.  The
`state["preset_active"]` update is not modelled. -/
def preset_set (num : Int) : Option (List Char) × Bool :=
  if 1 ≤ num ∧ num ≤ 255 then
    (some ("81 01 04 3F 00 ".data ++ pythonFmt02X num), true)
  else (none, false)

/-- Embeds `preset_call` of `app.py` (lines 165-171). -/
def preset_call (num : Int) : Option (List Char) × Bool :=
  if 1 ≤ num ∧ num ≤ 255 then
    (some ("81 01 04 3F 02 ".data ++ pythonFmt02X num), true)
  else (none, false)

/-- Embeds `preset_delete` of `app.py` (lines 173-178). -/
def preset_delete (num : Int) : Option (List Char) × Bool :=
  if 1 ≤ num ∧ num ≤ 255 then
    (some ("81 01 04 3F 01 ".data ++ pythonFmt02X num), true)
  else (none, false)

/-- Embeds one iteration of the `while True:` body of `gen_frames` in
`app.py` (lines 200-257).  On a failed read the counter increments and
status becomes `buffering`; past the threshold (`error_count > 10`) a
placeholder frame is substituted and status becomes `offline`, and the
frame is emitted like a normal one; at or below the threshold the loop
sleeps 0.1 s and `continue`s without emitting.  A successful read
resets the counter and sets status `live`.  A reopen
(`cap is None or not cap.isOpened()`) resets the counter to 0 before
the read.  An exception is caught by the outer handler, which sleeps
1 s and leaves the state unchanged. -/
def gen_frames_step (s : RelayState) (inp : IterIn) : IterOut :=
  if inp.raised then ⟨s, none, 1000⟩
  else
    let ec0 := if inp.capOpened then s.errorCount else 0
    match inp.read with
    | .failed =>
      let ec := ec0 + 1
      if 10 < ec then
        ⟨⟨ec, .offline⟩, if inp.encodeOk then some .placeholderOffline else none, 0⟩
      else
        ⟨⟨ec, .buffering⟩, none, 100⟩
    | .ok id =>
      ⟨⟨0, .live⟩, if inp.encodeOk then some (.capture id) else none, 0⟩

end App

namespace Ptz11

/-- Embeds `increment_sequence` of `ptz11_controller.py` (lines 79-81). -/
def increment_sequence (seq : Nat) : Nat :=
  (seq + 1) % 4294967296

/-- Embeds `build_visca_packet` of `ptz11_controller.py` (lines 83-95).
On success the function returns the packet together with the cleaned
hex string; on failure it returns `None` (the error-message string of
the Python tuple is not modelled). -/
def build_visca_packet (seq : Nat) (payload_hex : List Char) :
    Option (List Nat × List Char) × Nat :=
  let clean := cleanHex payload_hex
  match hexDecodePairs clean with
  | none => (none, seq)
  | some payload =>
    let s := increment_sequence seq
    let msg_length := payload.length + 1
    (some ((([1, 0, 0, msg_length % 256] ++ toBytesBE4 s) ++ (payload ++ [255])), clean), s)

/-- Embeds `send_visca_command` of `ptz11_controller.py` (lines 97-128).
A received datagram is accepted only when it has at least 8 bytes and
its first byte is 0x90 or 0x91; any other datagram falls through to the
final `return False, "Unknown error"` with the socket left open.  An
exception path closes the socket inside `try: sock.close()`. -/
def send_visca_command (seq : Nat) (payload_hex : List Char) (env : SendEnv) :
    SendOutcome :=
  match build_visca_packet seq payload_hex with
  | (none, s) => ⟨false, s, false, false, true, none⟩
  | (some (_, clean), s) =>
    match env.sendto with
    | .exn => ⟨false, s, true, true, true, none⟩
    | .ok =>
      match env.recv with
      | .reply data =>
        if 8 ≤ data.length ∧ (data.headD 0 = 144 ∨ data.headD 0 = 145) then
          ⟨true, s, true, true, true, some clean⟩
        else
          ⟨false, s, true, false, true, none⟩
      | .timeout => ⟨true, s, true, true, true, some clean⟩
      | .exn => ⟨false, s, true, true, true, none⟩

/-- Embeds the command string built by `visca_pan_tilt` of
`ptz11_controller.py` (lines 130-132): the speeds are formatted raw,
with no range check of any kind. -/
def visca_pan_tilt (pan_speed tilt_speed : Int) (pan_dir tilt_dir : List Char) :
    List Char :=
  "81 01 06 01 ".data ++ pythonFmt02X pan_speed ++ " ".data
    ++ pythonFmt02X tilt_speed ++ " ".data ++ pan_dir ++ " ".data ++ tilt_dir

/-- Embeds the byte computation of `visca_zoom` of `ptz11_controller.py`
(lines 134-140): `0x20 + (zoom_speed & 0x0F)` for `"in"`,
`0x30 + (zoom_speed & 0x0F)` for `"out"`, `0x00` otherwise — a 4-bit
mask, not a clamp. -/
def viscaZoomByte (zoom_dir : List Char) (zoom_speed : Int) : Int :=
  if zoom_dir = "in".data then 32 + zoom_speed % 16
  else if zoom_dir = "out".data then 48 + zoom_speed % 16
  else 0

/-- Embeds the payload string sent by `visca_zoom` (line 141). -/
def visca_zoom (zoom_dir : List Char) (zoom_speed : Int) : List Char :=
  "81 01 04 07 ".data ++ pythonFmt02X (viscaZoomByte zoom_dir zoom_speed)

/-- Embeds `visca_preset_save` of `ptz11_controller.py` (lines 163-168):
the accepted range is 0..254 and the payload is `81 01 04 3F 01 <num>`.
Out of range, nothing is sent (`return False, "Invalid preset"`).  The
`PRESET_MEMORY` timestamp write is not modelled. -/
def visca_preset_save (preset_num : Int) : Option (List Char) :=
  if ¬(0 ≤ preset_num ∧ preset_num ≤ 254) then none
  else some ("81 01 04 3F 01 ".data ++ pythonFmt02X preset_num)

/-- Embeds `visca_preset_recall` of `ptz11_controller.py`
(lines 157-161): range 0..254, payload `81 01 04 3F 02 <num>`. -/
def visca_preset_recall (preset_num : Int) : Option (List Char) :=
  if ¬(0 ≤ preset_num ∧ preset_num ≤ 254) then none
  else some ("81 01 04 3F 02 ".data ++ pythonFmt02X preset_num)

/-- Embeds one iteration of the `while True:` body of `gen_frames` in
`ptz11_controller.py` (lines 174-196).  There is no failure counter and
no stream-status field: every failed read immediately substitutes the
`"Stream Unavailable"` placeholder, which is then resized, encoded and
yielded like a normal frame; no sleep happens on the non-exception
path. -/
def gen_frames_step (read : ReadResult) (encodeOk : Bool) : Option FrameSrc × Nat :=
  match read with
  | .failed => (if encodeOk then some FrameSrc.placeholderUnavailable else none, 0)
  | .ok id => (if encodeOk then some (FrameSrc.capture id) else none, 0)

end Ptz11

/-- Iterated sequence-counter calls: `seqIter s0 k` is the counter value
after `k` calls of `get_seq` starting from counter value `s0`; the value
assigned to the `k`-th packet is `seqIter s0 k` for `k ≥ 1`. -/
def seqIter (s0 : Nat) : Nat → Nat
  | 0 => s0
  | k + 1 => App.get_seq (seqIter s0 k)

theorem seqIter_closed (s0 : Nat) (h : s0 < 4294967296) :
    ∀ k, seqIter s0 k = (s0 + k) % 4294967296 := by
  intro k
  induction k with
  | zero => simp [seqIter, Nat.mod_eq_of_lt h]
  | succ n ih =>
    show App.get_seq (seqIter s0 n) = _
    rw [ih, App.get_seq, Nat.mod_add_mod]
    omega

/-! ## Shared packet-builder equations -/

theorem decode_replicate510 :
    hexDecodePairs (cleanHex (List.replicate 510 '0')) = some (List.replicate 255 0) := by
  rw [cleanHex_replicate_zero]
  have h : (510 : Nat) = 2 * 255 := by norm_num
  rw [h, hexDecodePairs_replicate_zero]

theorem visca_packet_eq (seq : Nat) (P : List Char) (payload : List Nat)
    (hdec : hexDecodePairs (cleanHex P) = some payload) :
    App.visca_packet seq P =
      (some (([1, 0, 0, (payload.length + 1) % 256]
          ++ toBytesBE4 ((seq + 1) % 4294967296)) ++ (payload ++ [255])),
        (seq + 1) % 4294967296) := by
  simp only [App.visca_packet, hdec, App.get_seq]

theorem build_visca_packet_eq (seq : Nat) (P : List Char) (payload : List Nat)
    (hdec : hexDecodePairs (cleanHex P) = some payload) :
    Ptz11.build_visca_packet seq P =
      (some ((([1, 0, 0, (payload.length + 1) % 256]
          ++ toBytesBE4 ((seq + 1) % 4294967296)) ++ (payload ++ [255]), cleanHex P)),
        (seq + 1) % 4294967296) := by
  simp only [Ptz11.build_visca_packet, hdec, Ptz11.increment_sequence]

/-! ## Claim C1 -/

set_option maxRecDepth 8192 in
/-- C1 counterexample: the claim states that for every valid hex payload
(even digit count) the fourth packet byte equals `len(decoded P) + 1`.
For the valid 510-digit input `"00" * 255` the decoded payload has 255
bytes, so the claim requires the fourth byte to be 256 — but the code
computes `(len + 1) & 0xFF` and stores 0, and no byte can be 256.  The
builders do not reject this input. -/
theorem c1_counterexample_length_byte_truncated :
    ((App.visca_packet 0 (List.replicate 510 '0')).1.map (fun pkt => pkt.getD 3 0)) = some 0 ∧
    hexDecodePairs (cleanHex (List.replicate 510 '0')) = some (List.replicate 255 0) ∧
    (List.replicate 255 (0 : Nat)).length + 1 = 256 ∧ (0 : Nat) ≠ 256 := by
  refine ⟨?_, decode_replicate510, by decide, by decide⟩
  rw [visca_packet_eq 0 (List.replicate 510 '0') (List.replicate 255 0) decode_replicate510]
  decide

/-- C1 (amended): for every payload string whose cleaned form decodes,
both builders produce the same packet whose first byte is 0x01, whose
fourth byte is `(len(decoded P) + 1) mod 256` (the length byte is
truncated by `& 0xFF`, not validated), whose last byte is 0xFF, and
whose 4-byte big-endian sequence field is the pre-call counter plus 1
modulo 2^32. -/
theorem c1_packet_structure_mod256 (seq : Nat) (P : List Char) (payload : List Nat)
    (hdec : hexDecodePairs (cleanHex P) = some payload) :
    ∃ pkt,
      App.visca_packet seq P = (some pkt, (seq + 1) % 4294967296) ∧
      Ptz11.build_visca_packet seq P = (some (pkt, cleanHex P), (seq + 1) % 4294967296) ∧
      pkt.headD 0 = 1 ∧
      pkt.getD 3 0 = (payload.length + 1) % 256 ∧
      pkt.getLastD 0 = 255 ∧
      fromBytesBE ((pkt.drop 4).take 4) = (seq + 1) % 4294967296 := by
  refine ⟨([1, 0, 0, (payload.length + 1) % 256] ++ toBytesBE4 ((seq + 1) % 4294967296))
      ++ (payload ++ [255]), visca_packet_eq seq P payload hdec,
      build_visca_packet_eq seq P payload hdec, ?_, ?_, ?_, ?_⟩
  · rfl
  · rfl
  · show ((([1, 0, 0, (payload.length + 1) % 256]
        ++ toBytesBE4 ((seq + 1) % 4294967296)) ++ (payload ++ [255])).getLastD 0) = 255
    rw [← List.append_assoc]
    exact List.getLastD_concat _ _ _
  · show fromBytesBE ((toBytesBE4 ((seq + 1) % 4294967296) ++ (payload ++ [255])).take 4) = _
    have h4 : (toBytesBE4 ((seq + 1) % 4294967296)).length = 4 := rfl
    rw [← h4, take_length_append]
    exact fromBytesBE_toBytesBE4 _ (Nat.mod_lt _ (by norm_num))

/-- C1 witness: the amended statement evaluated on the payload `"02"`
from counter 0. -/
theorem c1_packet_structure_mod256_witness :
    hexDecodePairs (cleanHex "02".data) = some [2] ∧
    (∃ pkt,
      App.visca_packet 0 "02".data = (some pkt, (0 + 1) % 4294967296) ∧
      Ptz11.build_visca_packet 0 "02".data
        = (some (pkt, cleanHex "02".data), (0 + 1) % 4294967296) ∧
      pkt.headD 0 = 1 ∧
      pkt.getD 3 0 = (([2] : List Nat).length + 1) % 256 ∧
      pkt.getLastD 0 = 255 ∧
      fromBytesBE ((pkt.drop 4).take 4) = (0 + 1) % 4294967296) :=
  ⟨by decide, c1_packet_structure_mod256 0 "02".data [2] (by decide)⟩

/-! ## Claim C2 -/

/-- C2: starting from any counter value below 2^32, every sequence value
assigned by a further call is the previous counter plus 1 modulo 2^32
(the only mutation the code ever performs — the counter is never
decremented or reset), and within any window of fewer than 2^32
consecutive calls no value repeats.  Calls are serialized by the channel
lock, so the per-call model covers concurrent callers. -/
theorem c2_sequence_strictly_increasing (s0 : Nat) (h : s0 < 4294967296) :
    (∀ k, seqIter s0 (k + 1) = (seqIter s0 k + 1) % 4294967296) ∧
    (∀ i j, i < j → j - i < 4294967296 → seqIter s0 i ≠ seqIter s0 j) := by
  constructor
  · intro k
    rfl
  · intro i j hij hwin heq
    rw [seqIter_closed s0 h i, seqIter_closed s0 h j] at heq
    have hdvd : (4294967296 : Nat) ∣ (s0 + j) - (s0 + i) :=
      (Nat.modEq_iff_dvd' (by omega)).mp heq
    have hsub : (s0 + j) - (s0 + i) = j - i := by omega
    rw [hsub] at hdvd
    have := Nat.le_of_dvd (by omega) hdvd
    omega

/-- C2 witness: successor step and distinctness evaluated from the
`app.py` initial counter 0. -/
theorem c2_sequence_strictly_increasing_witness :
    seqIter 0 5 = (seqIter 0 4 + 1) % 4294967296 ∧ seqIter 0 2 ≠ seqIter 0 9 :=
  ⟨(c2_sequence_strictly_increasing 0 (by norm_num)).1 4,
   (c2_sequence_strictly_increasing 0 (by norm_num)).2 2 9 (by norm_num) (by norm_num)⟩

/-! ## Claim C3 -/

set_option maxRecDepth 8192 in
/-- C3 counterexample: the claim states the builders fail whenever the
decoded payload length plus 1 exceeds 255.  The valid 510-digit input
`"00" * 255` decodes to 255 bytes (255 + 1 = 256 > 255), yet both
builders succeed — the code truncates the length byte with `& 0xFF`
instead of raising. -/
theorem c3_counterexample_oversized_payload_builds :
    hexDecodePairs (cleanHex (List.replicate 510 '0')) = some (List.replicate 255 0) ∧
    (List.replicate 255 (0 : Nat)).length + 1 = 256 ∧
    (App.visca_packet 3 (List.replicate 510 '0')).1.isSome = true ∧
    (Ptz11.build_visca_packet 3 (List.replicate 510 '0')).1.isSome = true := by
  refine ⟨decode_replicate510, by decide, ?_, ?_⟩
  · rw [visca_packet_eq 3 (List.replicate 510 '0') (List.replicate 255 0) decode_replicate510]
    rfl
  · rw [build_visca_packet_eq 3 (List.replicate 510 '0') (List.replicate 255 0) decode_replicate510]
    rfl

/-- C3 (amended): scoped to ASCII payload strings (where the model's
per-character uppercasing matches Python's `str.upper`), the builders
fail exactly when the space-stripped input either contains a character
that is neither a hex digit nor ASCII whitespace, or has a
whitespace-delimited chunk with an odd number of hex digits — under
Python 3.11 `fromhex` semantics, whitespace is skipped between byte
pairs but may not split a pair.  In particular `"ZZ"` (non-hex),
`"811"` (odd digit count) and the tab-split pair `"8\t1"` fail, while
the tab-separated `"81\t02"` builds; an oversized payload is not
rejected (the length byte is truncated modulo 256 instead). -/
theorem c3_build_failure_characterization (seq : Nat) (P : List Char)
    (hascii : ∀ c ∈ P, c.toNat < 128) :
    ((App.visca_packet seq P).1 = none ↔
      ((∃ c ∈ cleanHex P, hexVal c = none ∧ isAsciiWS c = false) ∨
       (∃ g ∈ wsChunks (cleanHex P), g.length % 2 = 1))) ∧
    ((Ptz11.build_visca_packet seq P).1 = none ↔
      ((∃ c ∈ cleanHex P, hexVal c = none ∧ isAsciiWS c = false) ∨
       (∃ g ∈ wsChunks (cleanHex P), g.length % 2 = 1))) ∧
    (App.visca_packet seq "ZZ".data).1 = none ∧
    (App.visca_packet seq "811".data).1 = none ∧
    (App.visca_packet seq ['8', '\t', '1']).1 = none ∧
    (App.visca_packet seq ['8', '1', '\t', '0', '2']).1.isSome = true := by
  refine ⟨?_, ?_, rfl, rfl, rfl, rfl⟩
  · rw [← hexDecodePairs_eq_none_iff]
    cases h : hexDecodePairs (cleanHex P) with
    | none => simp [App.visca_packet, h]
    | some payload => simp [App.visca_packet, h, App.get_seq]
  · rw [← hexDecodePairs_eq_none_iff]
    cases h : hexDecodePairs (cleanHex P) with
    | none => simp [Ptz11.build_visca_packet, h]
    | some payload => simp [Ptz11.build_visca_packet, h, Ptz11.increment_sequence]

/-- C3 witness: the characterization evaluated at the non-hex ASCII
input `"ZZ"`. -/
theorem c3_build_failure_characterization_witness :
    (∀ c ∈ ("ZZ".data : List Char), c.toNat < 128) ∧
    (App.visca_packet 0 "ZZ".data).1 = none ∧
    (App.visca_packet 0 "811".data).1 = none ∧
    (App.visca_packet 0 ['8', '\t', '1']).1 = none ∧
    (App.visca_packet 0 ['8', '1', '\t', '0', '2']).1.isSome = true :=
  ⟨by decide,
   (c3_build_failure_characterization 0 "ZZ".data (by decide)).2.2.1,
   (c3_build_failure_characterization 0 "ZZ".data (by decide)).2.2.2.1,
   (c3_build_failure_characterization 0 "ZZ".data (by decide)).2.2.2.2.1,
   (c3_build_failure_characterization 0 "ZZ".data (by decide)).2.2.2.2.2⟩

/-! ## Claim C4 -/

/-- C4 counterexample: the claim states that a reply datagram of any
content yields success.  In `ptz11_controller.py`, a reply of the single
byte 0x00 (neither at least 8 bytes long nor starting with 0x90/0x91)
falls through to `return False, "Unknown error"`: the send fails after
receiving a datagram. -/
theorem c4_counterexample_unexpected_reply_fails :
    (Ptz11.send_visca_command 0 "81 01 04 00 02".data
      ⟨SendtoOutcome.ok, RecvOutcome.reply [0]⟩).ok = false := by decide

/-- C4 (amended): for valid payloads, `app.py`'s `send_cmd` succeeds
exactly when `sendto` succeeds and `recvfrom` does not raise a
non-timeout exception (any reply content and the timeout both succeed);
`ptz11_controller.py`'s `send_visca_command` additionally requires a
received reply to have at least 8 bytes and first byte 0x90 or 0x91 —
any other reply yields failure. -/
theorem c4_send_success_characterization (seq : Nat) (P : List Char)
    (payload : List Nat) (env : SendEnv)
    (hdec : hexDecodePairs (cleanHex P) = some payload) :
    ((App.send_cmd seq P env).ok = true ↔
      env.sendto = SendtoOutcome.ok ∧ env.recv ≠ RecvOutcome.exn) ∧
    ((Ptz11.send_visca_command seq P env).ok = true ↔
      env.sendto = SendtoOutcome.ok ∧
      (env.recv = RecvOutcome.timeout ∨
       ∃ d, env.recv = RecvOutcome.reply d ∧ 8 ≤ d.length ∧
         (d.headD 0 = 144 ∨ d.headD 0 = 145))) := by
  obtain ⟨st, rv⟩ := env
  constructor
  · cases st <;> cases rv <;>
      simp [App.send_cmd, App.visca_packet, hdec, App.get_seq]
  · cases st with
    | exn =>
      cases rv <;>
        simp [Ptz11.send_visca_command, Ptz11.build_visca_packet, hdec,
          Ptz11.increment_sequence]
    | ok =>
      cases rv with
      | timeout =>
        simp [Ptz11.send_visca_command, Ptz11.build_visca_packet, hdec,
          Ptz11.increment_sequence]
      | exn =>
        simp [Ptz11.send_visca_command, Ptz11.build_visca_packet, hdec,
          Ptz11.increment_sequence]
      | reply d =>
        have hbuild := build_visca_packet_eq seq P payload hdec
        simp only [Ptz11.send_visca_command, hbuild]
        by_cases hc : 8 ≤ d.length ∧ (d.headD 0 = 144 ∨ d.headD 0 = 145)
        · rw [if_pos hc]
          exact ⟨fun _ => ⟨by trivial, Or.inr ⟨d, rfl, hc.1, hc.2⟩⟩, fun _ => rfl⟩
        · rw [if_neg hc]
          constructor
          · intro hfalse
            exact absurd hfalse (by simp)
          · rintro ⟨-, htime | ⟨d', hd', hlen, hhead⟩⟩
            · exact RecvOutcome.noConfusion htime
            · injection hd' with hdd
              subst hdd
              exact (hc ⟨hlen, hhead⟩).elim

/-- C4 witness: the amended statement evaluated on the auto-focus
payload with a timing-out camera. -/
theorem c4_send_success_characterization_witness :
    hexDecodePairs (cleanHex "81 01 04 00 02".data) = some [129, 1, 4, 0, 2] ∧
    (((App.send_cmd 0 "81 01 04 00 02".data
        ⟨SendtoOutcome.ok, RecvOutcome.timeout⟩).ok = true ↔
      (⟨SendtoOutcome.ok, RecvOutcome.timeout⟩ : SendEnv).sendto = SendtoOutcome.ok ∧
      (⟨SendtoOutcome.ok, RecvOutcome.timeout⟩ : SendEnv).recv ≠ RecvOutcome.exn) ∧
     ((Ptz11.send_visca_command 0 "81 01 04 00 02".data
        ⟨SendtoOutcome.ok, RecvOutcome.timeout⟩).ok = true ↔
      (⟨SendtoOutcome.ok, RecvOutcome.timeout⟩ : SendEnv).sendto = SendtoOutcome.ok ∧
      ((⟨SendtoOutcome.ok, RecvOutcome.timeout⟩ : SendEnv).recv = RecvOutcome.timeout ∨
       ∃ d, (⟨SendtoOutcome.ok, RecvOutcome.timeout⟩ : SendEnv).recv = RecvOutcome.reply d ∧
         8 ≤ d.length ∧ (d.headD 0 = 144 ∨ d.headD 0 = 145)))) :=
  ⟨by decide, c4_send_success_characterization 0 "81 01 04 00 02".data
    [129, 1, 4, 0, 2] ⟨SendtoOutcome.ok, RecvOutcome.timeout⟩ (by decide)⟩

/-! ## Claim C5 -/

/-- C5 counterexample: the claim states that every failed-read iteration
with the consecutive-failure count at or below 10 sleeps ~100 ms and
emits no frame.  The relay loop of `ptz11_controller.py` has no failure
counter at all: its very first failed read (count 1, at or below any
threshold) immediately emits the `"Stream Unavailable"` placeholder and
does not sleep. -/
theorem c5_counterexample_ptz11_emits_on_first_failure :
    (Ptz11.gen_frames_step ReadResult.failed true).1
      = some FrameSrc.placeholderUnavailable ∧
    (Ptz11.gen_frames_step ReadResult.failed true).2 = 0 ∧ (0 : Nat) ≠ 100 := by
  decide

/-- C5 (amended, holds for `app.py`'s relay loop): in a non-raising
iteration with the capture open, a failed read whose consecutive-failure
count (including this failure) is at most 10 sleeps 100 ms and emits
nothing with status `buffering`; from the 11th consecutive failure
onward the iteration emits the offline placeholder and sets status
`offline`; a successful read resets the counter to 0 and the status to
`live` in that same iteration.  The `ptz11_controller.py` loop instead
has no counter and emits a placeholder on every failed read. -/
theorem c5_relay_failure_machine_app (s : RelayState) (inp : IterIn)
    (hraised : inp.raised = false) (hcap : inp.capOpened = true) :
    (inp.read = ReadResult.failed → s.errorCount + 1 ≤ 10 →
      (App.gen_frames_step s inp).emitted = none ∧
      (App.gen_frames_step s inp).sleptMs = 100 ∧
      (App.gen_frames_step s inp).state =
        ⟨s.errorCount + 1, StreamStatus.buffering⟩) ∧
    (inp.read = ReadResult.failed → 10 < s.errorCount + 1 → inp.encodeOk = true →
      (App.gen_frames_step s inp).emitted = some FrameSrc.placeholderOffline ∧
      (App.gen_frames_step s inp).state = ⟨s.errorCount + 1, StreamStatus.offline⟩) ∧
    (∀ id, inp.read = ReadResult.ok id →
      (App.gen_frames_step s inp).state.errorCount = 0 ∧
      (App.gen_frames_step s inp).state.status = StreamStatus.live) := by
  obtain ⟨r, c, rd, e⟩ := inp
  simp only at hraised hcap
  subst hraised
  subst hcap
  refine ⟨fun hr hle => ?_, fun hr hgt he => ?_, fun id hr => ?_⟩
  · simp only at hr
    subst hr
    simp only [App.gen_frames_step, Bool.false_eq_true, if_false, if_true]
    rw [if_neg (by omega)]
    simp
  · simp only at hr he
    subst hr
    subst he
    simp only [App.gen_frames_step, Bool.false_eq_true, if_false, if_true]
    rw [if_pos (by omega)]
    simp
  · simp only at hr
    subst hr
    simp [App.gen_frames_step]

/-- C5 witness: the 11th consecutive failure (counter 10 before the
iteration) emits the offline placeholder and marks the stream offline. -/
theorem c5_relay_failure_machine_app_witness :
    (App.gen_frames_step ⟨10, StreamStatus.buffering⟩
      ⟨false, true, ReadResult.failed, true⟩).emitted
        = some FrameSrc.placeholderOffline ∧
    (App.gen_frames_step ⟨10, StreamStatus.buffering⟩
      ⟨false, true, ReadResult.failed, true⟩).state = ⟨11, StreamStatus.offline⟩ :=
  (c5_relay_failure_machine_app ⟨10, StreamStatus.buffering⟩
    ⟨false, true, ReadResult.failed, true⟩ rfl rfl).2.1 rfl (by decide) rfl

/-! ## Claim C6 -/

/-- C6 counterexample: the claim states the socket is closed on every
exit path.  In `app.py`, when `sendto` raises, the outer `except`
returns `False` without closing the socket that was just opened. -/
theorem c6_counterexample_socket_leak_on_sendto_error :
    (App.send_cmd 0 "81 01 04 00 02".data
      ⟨SendtoOutcome.exn, RecvOutcome.timeout⟩).sockOpened = true ∧
    (App.send_cmd 0 "81 01 04 00 02".data
      ⟨SendtoOutcome.exn, RecvOutcome.timeout⟩).sockClosed = false := by
  decide

/-- C6 (amended): the channel lock is released on every exit path of
both send functions (the Python `with lock:` block), but the socket is
not: `app.py` closes the socket it opened exactly when `sendto`
succeeded (an exception at `sendto` leaks it), and
`ptz11_controller.py` closes it except on the unexpected-reply path
(fewer than 8 bytes or first byte not 0x90/0x91), where it is leaked. -/
theorem c6_lock_released_and_socket_close_characterization
    (seq : Nat) (P : List Char) (env : SendEnv) :
    (App.send_cmd seq P env).lockReleased = true ∧
    (Ptz11.send_visca_command seq P env).lockReleased = true ∧
    ((App.send_cmd seq P env).sockOpened = true →
      ((App.send_cmd seq P env).sockClosed = true ↔ env.sendto = SendtoOutcome.ok)) ∧
    ((Ptz11.send_visca_command seq P env).sockOpened = true →
      ((Ptz11.send_visca_command seq P env).sockClosed = true ↔
        ¬(env.sendto = SendtoOutcome.ok ∧ ∃ d, env.recv = RecvOutcome.reply d ∧
          ¬(8 ≤ d.length ∧ (d.headD 0 = 144 ∨ d.headD 0 = 145))))) := by
  obtain ⟨st, rv⟩ := env
  cases hdec : hexDecodePairs (cleanHex P) with
  | none =>
    cases st <;> cases rv <;>
      simp [App.send_cmd, App.visca_packet, Ptz11.send_visca_command,
        Ptz11.build_visca_packet, hdec]
  | some payload =>
    cases st with
    | exn =>
      cases rv <;>
        simp [App.send_cmd, App.visca_packet, Ptz11.send_visca_command,
          Ptz11.build_visca_packet, hdec, App.get_seq, Ptz11.increment_sequence]
    | ok =>
      cases rv with
      | timeout =>
        simp [App.send_cmd, App.visca_packet, Ptz11.send_visca_command,
          Ptz11.build_visca_packet, hdec, App.get_seq, Ptz11.increment_sequence]
      | exn =>
        simp [App.send_cmd, App.visca_packet, Ptz11.send_visca_command,
          Ptz11.build_visca_packet, hdec, App.get_seq, Ptz11.increment_sequence]
      | reply d =>
        have hbuild := build_visca_packet_eq seq P payload hdec
        have happ := visca_packet_eq seq P payload hdec
        refine ⟨?_, ?_, ?_, ?_⟩
        · simp [App.send_cmd, happ]
        · simp only [Ptz11.send_visca_command, hbuild]
          split <;> rfl
        · simp [App.send_cmd, happ]
        · simp only [Ptz11.send_visca_command, hbuild]
          by_cases hc : 8 ≤ d.length ∧ (d.headD 0 = 144 ∨ d.headD 0 = 145)
          · rw [if_pos hc]
            intro _
            constructor
            · rintro - ⟨-, d', hd', hbad⟩
              injection hd' with hdd
              subst hdd
              exact hbad hc
            · intro _
              rfl
          · rw [if_neg hc]
            intro _
            constructor
            · intro hfalse
              exact absurd hfalse (by simp)
            · intro hnot
              exact (hnot ⟨by trivial, d, rfl, hc⟩).elim

/-- C6 witness: on the success path (send ok, receive timeout) the
socket is closed. -/
theorem c6_lock_released_and_socket_close_characterization_witness :
    ((App.send_cmd 0 "81 01 04 00 02".data
        ⟨SendtoOutcome.ok, RecvOutcome.timeout⟩).sockClosed = true ↔
      (⟨SendtoOutcome.ok, RecvOutcome.timeout⟩ : SendEnv).sendto = SendtoOutcome.ok) :=
  (c6_lock_released_and_socket_close_characterization 0 "81 01 04 00 02".data
    ⟨SendtoOutcome.ok, RecvOutcome.timeout⟩).2.2.1 (by decide)

/-! ## Claim C7 -/

/-- C7 counterexample: the claim states that speed is first clamped to
[0, 7], so zoom in at speed 8 must encode 0x20 + 7 = 0x27.
`ptz11_controller.py`'s `visca_zoom` instead masks with `& 0x0F` and
encodes 0x28. -/
theorem c7_counterexample_zoom_mask_not_clamp :
    Ptz11.viscaZoomByte "in".data 8 = 40 ∧ (40 : Int) ≠ 32 + 7 := by decide

/-- C7 (amended): `app.py`'s `zoom` clamps the speed to [0, 7] and then
encodes 0x20+speed (in), 0x30+speed (out), 0x00 (stop);
`ptz11_controller.py`'s `visca_zoom` instead masks the speed with 0x0F
(so out-of-range speeds wrap rather than clamp), with the same stop
byte.  On the common domain 0..7 — in particular (in, 3) ↦ 0x23 and
(out, 7) ↦ 0x37 — the two agree. -/
theorem c7_zoom_byte_encoding (s : Int) :
    (App.zoomByte "stop".data s = 0 ∧ Ptz11.viscaZoomByte "stop".data s = 0) ∧
    (0 ≤ s → s ≤ 7 →
      App.zoomByte "in".data s = 32 + s ∧ App.zoomByte "out".data s = 48 + s ∧
      Ptz11.viscaZoomByte "in".data s = 32 + s ∧
      Ptz11.viscaZoomByte "out".data s = 48 + s) ∧
    (7 < s → App.zoomByte "in".data s = 39 ∧ App.zoomByte "out".data s = 55) ∧
    (s < 0 → App.zoomByte "in".data s = 32 ∧ App.zoomByte "out".data s = 48) ∧
    (Ptz11.viscaZoomByte "in".data s = 32 + s % 16 ∧
     Ptz11.viscaZoomByte "out".data s = 48 + s % 16) := by
  have hsi : ¬("stop".data : List Char) = "in".data := by decide
  have hso : ¬("stop".data : List Char) = "out".data := by decide
  have hoi : ¬("out".data : List Char) = "in".data := by decide
  refine ⟨⟨?_, ?_⟩, fun h0 h7 => ?_, fun h7 => ?_, fun hneg => ?_, ⟨?_, ?_⟩⟩
  · simp [App.zoomByte, hsi, hso]
  · simp [Ptz11.viscaZoomByte, hsi, hso]
  · refine ⟨?_, ?_, ?_, ?_⟩ <;> simp [App.zoomByte, Ptz11.viscaZoomByte, hoi] <;> omega
  · refine ⟨?_, ?_⟩ <;> simp [App.zoomByte, hoi] <;> omega
  · refine ⟨?_, ?_⟩ <;> simp [App.zoomByte, hoi] <;> omega
  · simp [Ptz11.viscaZoomByte]
  · simp [Ptz11.viscaZoomByte, hoi]

/-- C7 witness: zoom (in, 3) encodes 0x23 and (out, 7) encodes 0x37 in
both files. -/
theorem c7_zoom_byte_encoding_witness :
    App.zoomByte "in".data 3 = 32 + 3 ∧ App.zoomByte "out".data 7 = 48 + 7 ∧
    Ptz11.viscaZoomByte "in".data 3 = 32 + 3 ∧
    Ptz11.viscaZoomByte "out".data 7 = 48 + 7 :=
  ⟨((c7_zoom_byte_encoding 3).2.1 (by decide) (by decide)).1,
   ((c7_zoom_byte_encoding 7).2.1 (by decide) (by decide)).2.1,
   ((c7_zoom_byte_encoding 3).2.1 (by decide) (by decide)).2.2.1,
   ((c7_zoom_byte_encoding 7).2.1 (by decide) (by decide)).2.2.2⟩

/-! ## Claim C8 -/

/-- C8 counterexample: the claim states preset save sends
`81 01 04 3F 00 <num>`.  `ptz11_controller.py`'s `visca_preset_save(5)`
sends `81 01 04 3F 01 05` — the fifth payload byte is 0x01, not 0x00
(and its accepted range is 0..254, so 255 is rejected there, not
accepted). -/
theorem c8_counterexample_ptz11_save_sends_3F01 :
    Ptz11.visca_preset_save 5 = some "81 01 04 3F 01 05".data ∧
    hexDecodePairs (cleanHex "81 01 04 3F 01 05".data) = some [129, 1, 4, 63, 1, 5] ∧
    (1 : Nat) ≠ 0 ∧ Ptz11.visca_preset_save 255 = none := by decide

/-- C8 (amended): in `app.py`, for `num` in 1..255 `preset_set` sends
`81 01 04 3F 00 <num>` and `preset_delete` sends `81 01 04 3F 01 <num>`,
and outside that range both are no-ops returning `False` rather than an
error; in `ptz11_controller.py`, `visca_preset_save` sends
`81 01 04 3F 01 <num>` (the byte the claim assigns to delete) and
accepts 0..254, a no-op outside. -/
theorem c8_preset_payloads (num : Int) :
    (1 ≤ num → num ≤ 255 →
      App.preset_set num = (some ("81 01 04 3F 00 ".data ++ pythonFmt02X num), true) ∧
      App.preset_delete num
        = (some ("81 01 04 3F 01 ".data ++ pythonFmt02X num), true)) ∧
    (¬(1 ≤ num ∧ num ≤ 255) →
      App.preset_set num = (none, false) ∧ App.preset_delete num = (none, false)) ∧
    (0 ≤ num → num ≤ 254 →
      Ptz11.visca_preset_save num
        = some ("81 01 04 3F 01 ".data ++ pythonFmt02X num)) ∧
    (¬(0 ≤ num ∧ num ≤ 254) → Ptz11.visca_preset_save num = none) := by
  refine ⟨fun h1 h2 => ?_, fun h => ?_, fun h1 h2 => ?_, fun h => ?_⟩
  · constructor <;> simp [App.preset_set, App.preset_delete, h1, h2]
  · constructor <;> simp [App.preset_set, App.preset_delete, h]
  · simp [Ptz11.visca_preset_save, h1, h2]
  · simp [Ptz11.visca_preset_save, h]

/-- C8 witness: preset 5 saved through both files' functions. -/
theorem c8_preset_payloads_witness :
    App.preset_set 5 = (some ("81 01 04 3F 00 ".data ++ pythonFmt02X 5), true) ∧
    App.preset_delete 5 = (some ("81 01 04 3F 01 ".data ++ pythonFmt02X 5), true) ∧
    Ptz11.visca_preset_save 5 = some ("81 01 04 3F 01 ".data ++ pythonFmt02X 5) :=
  ⟨((c8_preset_payloads 5).1 (by decide) (by decide)).1,
   ((c8_preset_payloads 5).1 (by decide) (by decide)).2,
   (c8_preset_payloads 5).2.2.1 (by decide) (by decide)⟩

/-! ## Claim C9 -/

/-- C9 counterexample: the claim states a speed above 24 is encoded as
24.  `app.py`'s `pan_tilt` replaces any out-of-range speed with 0: at
speed 25 the emitted speed field is `00`, not `18` (= 24). -/
theorem c9_counterexample_out_of_range_speed_zeroed :
    App.pan_tilt_speed 25 = 0 ∧
    ((App.pan_tilt 25 3 "01".data "03".data).drop 12).take 2 = "00".data ∧
    (0 : Int) ≠ 24 := by decide

/-- C9 (amended): `app.py`'s `pan_tilt` replaces each axis speed by 0
whenever it is negative or above 24 (it does not clamp to the nearer
bound) and keeps in-range speeds unchanged; the transformed value is
what appears in the command's speed field.  `ptz11_controller.py`'s
`visca_pan_tilt` applies no range handling at all: the raw speed is
formatted into the field, and any value 0..255 decodes back to itself. -/
theorem c9_pan_tilt_speed_encoding (s t : Int) (pd td : List Char) :
    ((s < 0 ∨ 24 < s) → App.pan_tilt_speed s = 0) ∧
    (0 ≤ s → s ≤ 24 → App.pan_tilt_speed s = s) ∧
    ((App.pan_tilt s t pd td).drop 12).take (pythonFmt02X (App.pan_tilt_speed s)).length
      = pythonFmt02X (App.pan_tilt_speed s) ∧
    ((Ptz11.visca_pan_tilt s t pd td).drop 12).take (pythonFmt02X s).length
      = pythonFmt02X s ∧
    (0 ≤ s → s < 256 → hexDecodePairs (pythonFmt02X s) = some [s.toNat]) := by
  refine ⟨fun h => ?_, fun h1 h2 => ?_, ?_, ?_, fun h1 h2 => ?_⟩
  · simp [App.pan_tilt_speed, h]
  · have : ¬(s < 0 ∨ 24 < s) := by omega
    simp [App.pan_tilt_speed, this]
  · rw [App.pan_tilt]
    simp only [List.append_assoc]
    rw [show (12 : Nat) = ("81 01 06 01 ".data : List Char).length from rfl,
      drop_length_append]
    exact take_length_append _ _
  · rw [Ptz11.visca_pan_tilt]
    simp only [List.append_assoc]
    rw [show (12 : Nat) = ("81 01 06 01 ".data : List Char).length from rfl,
      drop_length_append]
    exact take_length_append _ _
  · exact hexDecodePairs_pythonFmt02X s h1 h2

/-- C9 witness: speed 25 is zeroed, speed 10 is kept and decodes to
byte 10. -/
theorem c9_pan_tilt_speed_encoding_witness :
    App.pan_tilt_speed 25 = 0 ∧ App.pan_tilt_speed 10 = 10 ∧
    hexDecodePairs (pythonFmt02X 10) = some [(10 : Int).toNat] :=
  ⟨(c9_pan_tilt_speed_encoding 25 3 "01".data "03".data).1 (by decide),
   (c9_pan_tilt_speed_encoding 10 3 "01".data "03".data).2.1 (by decide) (by decide),
   (c9_pan_tilt_speed_encoding 10 3 "01".data "03".data).2.2.2.2 (by decide) (by decide)⟩

/-! ## Claim C10 -/

/-- C10: in both files the hex decode runs before the sequence counter
is touched, so a build failure (non-hex characters or odd digit count)
leaves the counter unchanged, and the enclosing send fails without
consuming a sequence value. -/
theorem c10_failed_build_preserves_counter (seq : Nat) (P : List Char) (env : SendEnv)
    (hfail : hexDecodePairs (cleanHex P) = none) :
    App.visca_packet seq P = (none, seq) ∧
    Ptz11.build_visca_packet seq P = (none, seq) ∧
    (App.send_cmd seq P env).ok = false ∧
    (App.send_cmd seq P env).seq = seq ∧
    (Ptz11.send_visca_command seq P env).ok = false ∧
    (Ptz11.send_visca_command seq P env).seq = seq := by
  have happ : App.visca_packet seq P = (none, seq) := by
    simp [App.visca_packet, hfail]
  have hptz : Ptz11.build_visca_packet seq P = (none, seq) := by
    simp [Ptz11.build_visca_packet, hfail]
  refine ⟨happ, hptz, ?_, ?_, ?_, ?_⟩ <;>
    simp [App.send_cmd, Ptz11.send_visca_command, happ, hptz]

/-- C10 witness: the non-hex payload `"ZZ"` fails to build from counter
7 and leaves both counters at 7. -/
theorem c10_failed_build_preserves_counter_witness :
    hexDecodePairs (cleanHex "ZZ".data) = none ∧
    App.visca_packet 7 "ZZ".data = (none, 7) ∧
    Ptz11.build_visca_packet 7 "ZZ".data = (none, 7) ∧
    (App.send_cmd 7 "ZZ".data ⟨SendtoOutcome.ok, RecvOutcome.timeout⟩).seq = 7 ∧
    (Ptz11.send_visca_command 7 "ZZ".data
      ⟨SendtoOutcome.ok, RecvOutcome.timeout⟩).seq = 7 :=
  ⟨by decide,
   (c10_failed_build_preserves_counter 7 "ZZ".data
     ⟨SendtoOutcome.ok, RecvOutcome.timeout⟩ (by decide)).1,
   (c10_failed_build_preserves_counter 7 "ZZ".data
     ⟨SendtoOutcome.ok, RecvOutcome.timeout⟩ (by decide)).2.1,
   (c10_failed_build_preserves_counter 7 "ZZ".data
     ⟨SendtoOutcome.ok, RecvOutcome.timeout⟩ (by decide)).2.2.2.1,
   (c10_failed_build_preserves_counter 7 "ZZ".data
     ⟨SendtoOutcome.ok, RecvOutcome.timeout⟩ (by decide)).2.2.2.2.2⟩
